import Mathlib

/-!
Shallow embedding of scripts/test-toml-validation.py.

The script (after its two module imports, tomllib and sys) is:

  try:
      with open(".secrets.toml.test", "rb") as f:
          tomllib.loads(f.read())
      print("❌ ERROR: TOML validation should have failed!")
      print("   Missing closing quote was not detected!")
      sys.exit(1)
  except tomllib.TOMLDecodeError as e:
      print(f"✅ TOML validation correctly caught error:")
      print(f"   {e}")
      sys.exit(0)
  except Exception as e:
      print(f"⚠️  Unexpected error: {e}")
      sys.exit(1)

Every path through the try block ends in a raised exception: the open can
fail, tomllib.loads can raise, and the success path ends in sys.exit(1),
which raises SystemExit. The embedding therefore models the try block as a
function from the filesystem to a trace of observable effects together
with the exception the block ended in, and models the two except clauses
plus the process boundary as a dispatcher on that exception.

The external pieces are modelled from their documented behavior:
tomllib.loads accepts only str and raises TypeError when handed a bytes
object, before any TOML decoding; the TOML grammar itself lives in the
Python standard library, not in this repository, so it enters as a
parameter (the script, as written, never reaches it). SystemExit derives
from BaseException but not from Exception, so an except Exception clause
does not catch it.
-/

namespace TomlCheck

/-- The fixture path literal of the script: open(".secrets.toml.test", "rb"). -/
def fixturePath : String := ".secrets.toml.test"

/-- A Python value handed to tomllib.loads: a bytes object (one Nat per
byte) or a str. The script always hands over the bytes that f.read()
returned, since the file was opened in binary mode. -/
inductive PyVal where
  | bytes (b : List Nat)
  | str (s : String)
deriving DecidableEq, Repr

/-- The exceptions that arise in the script, with the Python class facts
the except clauses dispatch on. SystemExit is what sys.exit(n) raises. -/
inductive Exc where
  | tomlDecodeError (msg : String)
  | typeError (msg : String)
  | fileNotFoundError (msg : String)
  | systemExit (code : Nat)
deriving DecidableEq, Repr

/-- Test of the first except clause: isinstance(e, tomllib.TOMLDecodeError). -/
def Exc.isTOMLDecodeError : Exc → Bool
  | .tomlDecodeError _ => true
  | _ => false

/-- Test of the second except clause: isinstance(e, Exception).
TOMLDecodeError (a ValueError), TypeError, and FileNotFoundError (an
OSError) are all subclasses of Exception; SystemExit derives only from
BaseException and is not an Exception. -/
def Exc.isException : Exc → Bool
  | .systemExit _ => false
  | _ => true

/-- The str(e) text interpolated into the printed messages. -/
def Exc.message : Exc → String
  | .tomlDecodeError m => m
  | .typeError m => m
  | .fileNotFoundError m => m
  | .systemExit n => toString n

/-- Process exit code when an exception escapes every except clause:
SystemExit(n) terminates the process with code n; any other uncaught
exception terminates it with code 1 after a traceback on stderr. -/
def Exc.uncaughtExit : Exc → Nat
  | .systemExit n => n
  | _ => 1

/-- The str(e) text of the TypeError that CPython tomllib.loads raises
when handed a bytes object (the quoting Python puts around the type name
is elided). -/
def typeErrMsg : String := "Expected str object, not bytes"

/-- The str(e) text of the FileNotFoundError raised by open when the
fixture file is missing (the quoting Python puts around the path is
elided). -/
def fnfMsg : String := "[Errno 2] No such file or directory: .secrets.toml.test"

/-- CPython tomllib.loads. It accepts only str: handed a bytes object it
raises TypeError before any TOML decoding happens. On a str it runs the
TOML grammar, which lives in the standard library, not in this
repository; the grammar is therefore a parameter, and its parse failure
becomes a TOMLDecodeError carrying the parse message. -/
def tomllib_loads (parse : String → Except String Unit) : PyVal → Except Exc Unit
  | .bytes _ => .error (.typeError typeErrMsg)
  | .str s =>
      match parse s with
      | .ok _ => .ok ()
      | .error m => .error (.tomlDecodeError m)

/-- File-handle events of the with-statement. -/
inductive HEvent where
  | acquire
  | release
deriving DecidableEq, Repr

/-- Observable effects of one invocation: the stdout lines, the paths
the script opened, the paths it wrote (the script has no write operation
anywhere, so this list stays empty), the file-handle events, and the
arguments handed to tomllib.loads. -/
structure Trace where
  stdout : List String := []
  opens : List String := []
  writes : List String := []
  handles : List HEvent := []
  loadsArgs : List PyVal := []
deriving DecidableEq, Repr

/-- Result of one invocation: the trace and the process exit code. -/
structure RunOut where
  trace : Trace
  exitCode : Nat
deriving DecidableEq, Repr

/-- The filesystem: the content of each path, none when the file is
missing. -/
abbrev FS := String → Option (List Nat)

/-- The try block. Open the fixture in binary mode (FileNotFoundError
when it is missing, and no handle is ever acquired), read the full
content, hand it to tomllib.loads; on decode success print the two
should-have-failed lines and call sys.exit(1). Every path ends in a
raised exception, returned next to the trace accumulated so far; the
with-statement releases the handle on the exceptional exits too. -/
def tryBody (parse : String → Except String Unit) (fs : FS) : Trace × Exc :=
  match fs fixturePath with
  | none =>
      ({ opens := [fixturePath] }, .fileNotFoundError fnfMsg)
  | some content =>
      let arg := PyVal.bytes content
      match tomllib_loads parse arg with
      | .error e =>
          ({ opens := [fixturePath], handles := [.acquire, .release],
             loadsArgs := [arg] }, e)
      | .ok _ =>
          ({ opens := [fixturePath], handles := [.acquire, .release],
             loadsArgs := [arg],
             stdout := ["❌ ERROR: TOML validation should have failed!",
                        "   Missing closing quote was not detected!"] },
           .systemExit 1)

/-- The two except clauses, tried in order as Python does, and the
process boundary behind them: except tomllib.TOMLDecodeError prints the
two success lines and exits 0; except Exception prints the warning line
and exits 1; an exception matching neither clause escapes the script,
leaves stdout untouched, and ends the process with its uncaught exit
code. -/
def handleExc (t : Trace) (e : Exc) : RunOut :=
  if e.isTOMLDecodeError then
    { trace := { t with stdout := t.stdout ++
        ["✅ TOML validation correctly caught error:", "   " ++ e.message] },
      exitCode := 0 }
  else if e.isException then
    { trace := { t with stdout := t.stdout ++
        ["⚠️  Unexpected error: " ++ e.message] },
      exitCode := 1 }
  else
    { trace := t, exitCode := e.uncaughtExit }

/-- One invocation of scripts/test-toml-validation.py against the
filesystem fs, with the external TOML string grammar parse. -/
def scriptRun (parse : String → Except String Unit) (fs : FS) : RunOut :=
  let r := tryBody parse fs
  handleExc r.1 r.2

/-- The tri-state outcome of the check. -/
inductive Branch where
  | unexpectedSuccess
  | expectedFailureCaught
  | unexpectedError
deriving DecidableEq, Repr

/-- The branch an invocation took, read off the exception the try block
ended in: SystemExit means the decode succeeded and the
unexpected-success prints ran; TOMLDecodeError is the expected failure,
correctly caught; anything else is an unexpected error. -/
def branchOf : Exc → Branch
  | .systemExit _ => .unexpectedSuccess
  | .tomlDecodeError _ => .expectedFailureCaught
  | _ => .unexpectedError

/-- Bytes of an ASCII fixture, one Nat per byte. -/
def bytesOf (s : String) : List Nat := s.data.map Char.toNat

/-- The fixture content the script is meant to exercise: a TOML string
value missing its closing quote. -/
def unterminatedContent : List Nat := bytesOf "key = \"unterminated"

/-- A well-formed TOML fixture content. -/
def validContent : List Nat := bytesOf "key = \"valid\""

/-- A stand-in instance of the external TOML string grammar that accepts
every string. The script, as written, never reaches the grammar. -/
def acceptAll : String → Except String Unit := fun _ => .ok ()

/-- A second stand-in grammar that rejects every string. -/
def rejectAll : String → Except String Unit := fun _ => .error "Invalid statement"

/-- Filesystem holding the unterminated fixture at the fixture path. -/
def unterminatedFS : FS :=
  fun p => if p = fixturePath then some unterminatedContent else none

/-- Filesystem holding the well-formed fixture at the fixture path. -/
def validFS : FS :=
  fun p => if p = fixturePath then some validContent else none

/-- Filesystem with no files at all: the fixture is missing. -/
def missingFS : FS := fun _ => none

/-- Claim C1: evaluated at its own fixture, the claim fails on the code.
With the unterminated-string fixture in place, tomllib.loads receives
the bytes from f.read() and raises TypeError, so the script does not
catch a TOMLDecodeError, prints the Unexpected-error warning rather
than the validation-caught message, and exits 1, not 0. -/
theorem unterminated_fixture_hits_generic_branch :
    (tryBody acceptAll unterminatedFS).2 = Exc.typeError typeErrMsg ∧
    (tryBody acceptAll unterminatedFS).2.isTOMLDecodeError = false ∧
    (scriptRun acceptAll unterminatedFS).trace.stdout =
      ["⚠️  Unexpected error: " ++ typeErrMsg] ∧
    (scriptRun acceptAll unterminatedFS).exitCode = 1 ∧
    ¬ (scriptRun acceptAll unterminatedFS).exitCode = 0 := by
  refine ⟨rfl, rfl, rfl, rfl, by decide⟩

/-- Claim C2: over every filesystem and every TOML grammar, the process
exits 0 exactly when the try block ended in a TOMLDecodeError, and the
exit code is always 0 or 1. The last four conjuncts spell out the
dispatcher on each exception kind the try block can end in: only the
expected decode error exits 0; a TypeError, a FileNotFoundError, and
the SystemExit(1) of the success path all exit 1. -/
theorem exit_zero_iff_decode_error
    (parse : String → Except String Unit) (fs : FS) (t : Trace) (m : String) :
    ((scriptRun parse fs).exitCode = 0 ↔
      (tryBody parse fs).2.isTOMLDecodeError = true) ∧
    ((scriptRun parse fs).exitCode = 0 ∨ (scriptRun parse fs).exitCode = 1) ∧
    (handleExc t (Exc.tomlDecodeError m)).exitCode = 0 ∧
    (handleExc t (Exc.typeError m)).exitCode = 1 ∧
    (handleExc t (Exc.fileNotFoundError m)).exitCode = 1 ∧
    (handleExc t (Exc.systemExit 1)).exitCode = 1 := by
  refine ⟨?_, ?_, rfl, rfl, rfl, rfl⟩ <;>
    cases h : fs fixturePath <;>
      simp [scriptRun, tryBody, handleExc, tomllib_loads, h,
        Exc.isTOMLDecodeError, Exc.isException]

/-- Claim C3: evaluated at a well-formed fixture, the claim fails on the
code. The decode step does not succeed — tomllib.loads receives bytes
and raises TypeError, even under a grammar accepting every string — so
the script prints the Unexpected-error warning, never the two
should-have-failed lines, and exits 1 through the generic branch. -/
theorem valid_fixture_hits_generic_branch :
    (tryBody acceptAll validFS).2 = Exc.typeError typeErrMsg ∧
    (tryBody acceptAll validFS).2 ≠ Exc.systemExit 1 ∧
    (scriptRun acceptAll validFS).trace.stdout =
      ["⚠️  Unexpected error: " ++ typeErrMsg] ∧
    (scriptRun acceptAll validFS).trace.stdout ≠
      ["❌ ERROR: TOML validation should have failed!",
       "   Missing closing quote was not detected!"] ∧
    (scriptRun acceptAll validFS).exitCode = 1 := by
  refine ⟨rfl, by decide, rfl, by decide, rfl⟩

/-- Claim C4: with the fixture file missing, the try block ends in a
FileNotFoundError — a file-not-found-class error, not a decode error —
the script prints the Unexpected-error warning, and exits 1. -/
theorem missing_fixture_warns_and_exits_one
    (parse : String → Except String Unit) (fs : FS)
    (h : fs fixturePath = none) :
    (tryBody parse fs).2 = Exc.fileNotFoundError fnfMsg ∧
    (tryBody parse fs).2.isTOMLDecodeError = false ∧
    (scriptRun parse fs).trace.stdout = ["⚠️  Unexpected error: " ++ fnfMsg] ∧
    (scriptRun parse fs).exitCode = 1 := by
  simp [scriptRun, tryBody, handleExc, h, Exc.isTOMLDecodeError,
    Exc.isException, Exc.message]

/-- Claim C4, witnessed at the concrete empty filesystem. -/
theorem missing_fixture_warns_and_exits_one_witness :
    (tryBody acceptAll missingFS).2 = Exc.fileNotFoundError fnfMsg ∧
    (tryBody acceptAll missingFS).2.isTOMLDecodeError = false ∧
    (scriptRun acceptAll missingFS).trace.stdout =
      ["⚠️  Unexpected error: " ++ fnfMsg] ∧
    (scriptRun acceptAll missingFS).exitCode = 1 :=
  missing_fixture_warns_and_exits_one acceptAll missingFS rfl

/-- Claim C5: every invocation ends in exactly one of the three
branches; the exception the try block ends in is either caught (it is
an Exception) or is the SystemExit(1) of sys.exit, so nothing else
escapes the script; at least one line is printed; and the exit code is
always 0 or 1. -/
theorem run_total_three_branches
    (parse : String → Except String Unit) (fs : FS) :
    (∃! b : Branch, branchOf (tryBody parse fs).2 = b) ∧
    ((tryBody parse fs).2.isException = true ∨
      (tryBody parse fs).2 = Exc.systemExit 1) ∧
    (scriptRun parse fs).trace.stdout ≠ [] ∧
    ((scriptRun parse fs).exitCode = 0 ∨ (scriptRun parse fs).exitCode = 1) := by
  refine ⟨⟨branchOf (tryBody parse fs).2, rfl, fun b hb => hb.symm⟩, ?_, ?_, ?_⟩ <;>
    cases h : fs fixturePath <;>
      simp [scriptRun, tryBody, handleExc, tomllib_loads, h,
        Exc.isTOMLDecodeError, Exc.isException]

/-- Claim C6: determinism — the run is a function of the fixture file
content alone, so two runs against the same unchanged fixture produce
identical exit codes and identical printed messages. -/
theorem run_deterministic
    (parse : String → Except String Unit) (fs1 fs2 : FS)
    (h : fs1 fixturePath = fs2 fixturePath) :
    scriptRun parse fs1 = scriptRun parse fs2 := by
  unfold scriptRun tryBody
  rw [h]

/-- Claim C6, witnessed at two concrete filesystems agreeing on the
fixture path. -/
theorem run_deterministic_witness :
    scriptRun acceptAll validFS = scriptRun acceptAll (fun _ => some validContent) :=
  run_deterministic acceptAll validFS (fun _ => some validContent) (by decide)

/-- Claim C7: file-handle discipline — the handle trace is either empty
(the open itself failed, nothing to release) or exactly one acquisition
followed by its release; whenever the fixture file exists the single
handle is acquired and released, on the path where loads raises as on
the success path. -/
theorem handle_released_on_all_paths
    (parse : String → Except String Unit) (fs : FS) :
    ((scriptRun parse fs).trace.handles = [] ∨
      (scriptRun parse fs).trace.handles = [HEvent.acquire, HEvent.release]) ∧
    (∀ c, fs fixturePath = some c →
      (scriptRun parse fs).trace.handles = [HEvent.acquire, HEvent.release]) ∧
    (fs fixturePath = none → (scriptRun parse fs).trace.handles = []) := by
  refine ⟨?_, fun c hc => ?_, fun hn => ?_⟩
  · cases h : fs fixturePath <;>
      simp [scriptRun, tryBody, handleExc, tomllib_loads, h,
        Exc.isTOMLDecodeError, Exc.isException]
  · simp [scriptRun, tryBody, handleExc, tomllib_loads, hc,
      Exc.isTOMLDecodeError, Exc.isException]
  · simp [scriptRun, tryBody, handleExc, hn,
      Exc.isTOMLDecodeError, Exc.isException]

/-- Claim C7, witnessed at the concrete well-formed fixture. -/
theorem handle_released_on_all_paths_witness :
    (scriptRun acceptAll validFS).trace.handles =
      [HEvent.acquire, HEvent.release] :=
  (handle_released_on_all_paths acceptAll validFS).2.1 validContent (by decide)

/-- Claim C8: the only filesystem interaction is opening the fixed
fixture path; nothing is ever written; and when the fixture exists its
complete content is passed, as bytes, to a single tomllib.loads call
(none when the open failed). -/
theorem reads_fixture_only_writes_nothing
    (parse : String → Except String Unit) (fs : FS) :
    (scriptRun parse fs).trace.opens = [fixturePath] ∧
    (scriptRun parse fs).trace.writes = [] ∧
    (∀ c, fs fixturePath = some c →
      (scriptRun parse fs).trace.loadsArgs = [PyVal.bytes c]) ∧
    (fs fixturePath = none → (scriptRun parse fs).trace.loadsArgs = []) := by
  refine ⟨?_, ?_, fun c hc => ?_, fun hn => ?_⟩
  · cases h : fs fixturePath <;>
      simp [scriptRun, tryBody, handleExc, tomllib_loads, h,
        Exc.isTOMLDecodeError, Exc.isException]
  · cases h : fs fixturePath <;>
      simp [scriptRun, tryBody, handleExc, tomllib_loads, h,
        Exc.isTOMLDecodeError, Exc.isException]
  · simp [scriptRun, tryBody, handleExc, tomllib_loads, hc,
      Exc.isTOMLDecodeError, Exc.isException]
  · simp [scriptRun, tryBody, handleExc, hn,
      Exc.isTOMLDecodeError, Exc.isException]

/-- Claim C8, witnessed at the concrete well-formed fixture. -/
theorem reads_fixture_only_writes_nothing_witness :
    (scriptRun acceptAll validFS).trace.opens = [fixturePath] ∧
    (scriptRun acceptAll validFS).trace.writes = [] ∧
    (scriptRun acceptAll validFS).trace.loadsArgs = [PyVal.bytes validContent] :=
  ⟨(reads_fixture_only_writes_nothing acceptAll validFS).1,
   (reads_fixture_only_writes_nothing acceptAll validFS).2.1,
   (reads_fixture_only_writes_nothing acceptAll validFS).2.2.1 validContent (by decide)⟩

/-- Claim C9: for every fixture file that can be opened and read,
whatever its content, tomllib.loads receives a bytes object and raises
TypeError before any TOML decoding: the try block ends in the TypeError,
the invocation takes the unexpected-error branch — never the
TOMLDecodeError branch or the unexpected-success branch — prints the
Unexpected-error warning, exits 1, and its whole outcome is independent
of the TOML grammar, which is never consulted. -/
theorem bytes_always_type_error
    (p q : String → Except String Unit) (fs : FS)
    (c : List Nat) (h : fs fixturePath = some c) :
    (tryBody p fs).2 = Exc.typeError typeErrMsg ∧
    branchOf (tryBody p fs).2 = Branch.unexpectedError ∧
    (scriptRun p fs).trace.stdout = ["⚠️  Unexpected error: " ++ typeErrMsg] ∧
    (scriptRun p fs).exitCode = 1 ∧
    scriptRun p fs = scriptRun q fs := by
  refine ⟨?_, ?_, ?_, ?_, ?_⟩ <;>
    simp [scriptRun, tryBody, handleExc, tomllib_loads, branchOf, h,
      Exc.isTOMLDecodeError, Exc.isException, Exc.message]

/-- Claim C9, witnessed at the concrete unterminated fixture, under two
different grammars. -/
theorem bytes_always_type_error_witness :
    (tryBody rejectAll unterminatedFS).2 = Exc.typeError typeErrMsg ∧
    branchOf (tryBody rejectAll unterminatedFS).2 = Branch.unexpectedError ∧
    (scriptRun rejectAll unterminatedFS).trace.stdout =
      ["⚠️  Unexpected error: " ++ typeErrMsg] ∧
    (scriptRun rejectAll unterminatedFS).exitCode = 1 ∧
    scriptRun rejectAll unterminatedFS = scriptRun acceptAll unterminatedFS :=
  bytes_always_type_error rejectAll acceptAll unterminatedFS
    unterminatedContent (by decide)

/-- Claim C10: the SystemExit that sys.exit(1) raises in the
unexpected-success branch matches neither except clause — it is not a
TOMLDecodeError and not an instance of Exception — so it escapes both
handlers with stdout untouched and the process ends with the exit code
1 it carries. -/
theorem system_exit_not_intercepted (t : Trace) :
    (Exc.systemExit 1).isException = false ∧
    (Exc.systemExit 1).isTOMLDecodeError = false ∧
    (handleExc t (Exc.systemExit 1)).exitCode = 1 ∧
    (handleExc t (Exc.systemExit 1)).trace = t :=
  ⟨rfl, rfl, rfl, rfl⟩

end TomlCheck
